import Mathlib

/-!
# Bucket provisioner utilities (`pkg/operator/ceph/object/bucket/util.go`)

A shallow embedding of the helper functions of the Ceph object bucket provisioner:
the storage-class parameter reads, the quota reads, the three resource lookups
(`getObjectStore`, `getService`, `getCephCluster`) and `randomString`.

Conventions of the embedding.

* A Go `string` is a Lean `String`.
* A Go `map[string]string` is a `GoMap`: either the `nil` map or a table of entries.
* A Go `error` is an `Option GoError`, `none` being the `nil` error.
* A Go pointer result (`*T`) is an `Option T`, `none` being the `nil` pointer.
* A call to a collaborator (client set, random source) is a function stored in the
  model of the receiver; its Go result tuple is a Lean pair.
* A run-time panic of a function is the result `none` of its `Option` return type.
* Receivers and the struct pointers they hold (`p`, `p.context`, `p.clusterInfo`, `sc`,
  `options`) are taken to be non-nil, as every caller in the package passes them.
-/

namespace Bucket

/-! ## Go maps -/

/-- A Go `map[string]string`. `GoMap.nil` is the nil map; `GoMap.entries kvs` is a map
holding the bindings of `kvs`, the first binding of a key being the one that counts. -/
inductive GoMap where
  | nil : GoMap
  | entries (kvs : List (String × String)) : GoMap
  deriving DecidableEq, Repr

/-- The binding of `key` in the map, if the key is present.  Reading a nil map is allowed
in Go and finds nothing. -/
def GoMap.get? : GoMap → String → Option String
  | GoMap.nil, _ => none
  | GoMap.entries kvs, key => kvs.lookup key

/-- The Go expression `m[key]`: the bound value, or the zero value `""`. -/
def GoMap.index (m : GoMap) (key : String) : String :=
  match m.get? key with
  | some v => v
  | none => ""

/-- The Go expression `v, ok := m[key]`. -/
def GoMap.indexOk (m : GoMap) (key : String) : String × Bool :=
  match m.get? key with
  | some v => (v, true)
  | none => ("", false)

/-! ## Kubernetes objects (the fields the package reads) -/

/-- The `storagev1.StorageClass` fields read by the package. -/
structure StorageClass where
  Parameters : GoMap
  deriving DecidableEq, Repr

/-- The `ObjectBucketClaimSpec` fields read by the package. -/
structure ObjectBucketClaimSpec where
  AdditionalConfig : GoMap
  deriving DecidableEq, Repr

/-- The `bktv1alpha1.ObjectBucketClaim` fields read by the package. -/
structure ObjectBucketClaim where
  Spec : ObjectBucketClaimSpec
  deriving DecidableEq, Repr

/-- The `apibkt.BucketOptions` fields read by the package. -/
structure BucketOptions where
  ObjectBucketClaim : ObjectBucketClaim
  deriving DecidableEq, Repr

/-! ## Package constants -/

def genUserLen : Nat := 8
def cephUser : String := "cephUser"
def objectStoreName : String := "objectStoreName"
def objectStoreNamespace : String := "objectStoreNamespace"
def objectStoreEndpoint : String := "endpoint"

/-! ## Parameter and quota reads -/

def getObjectStoreName (sc : StorageClass) : String :=
  sc.Parameters.index objectStoreName

def getObjectStoreNameSpace (sc : StorageClass) : String :=
  sc.Parameters.index objectStoreNamespace

def getObjectStoreEndpoint (sc : StorageClass) : String :=
  sc.Parameters.index objectStoreEndpoint

def isStaticBucket (sc : StorageClass) : String × Bool :=
  let key := "bucketName"
  let (val, ok) := sc.Parameters.indexOk key
  (val, ok)

def MaxObjectQuota (options : BucketOptions) : String :=
  options.ObjectBucketClaim.Spec.AdditionalConfig.index "maxObjects"

def MaxSizeQuota (options : BucketOptions) : String :=
  options.ObjectBucketClaim.Spec.AdditionalConfig.index "maxSize"

/-- The storage-class parameters of the end-to-end scenario. -/
def scenarioParameters : GoMap :=
  GoMap.entries [("objectStoreName", "store1"), ("objectStoreNamespace", "rook-ceph"),
    ("bucketName", "fixed-bucket")]

/-! ## Formatting with `%q` (package `strconv`) -/

/-- The function `strconv.IsPrint`: the Latin-1 range is decided by its fast path, and its
tables for the runes above U+00FF are the parameter `printTable`. -/
def IsPrint (printTable : Nat → Bool) (r : Nat) : Bool :=
  if r ≤ 0xFF then
    if 0x20 ≤ r ∧ r ≤ 0x7E then true
    else if 0xA1 ≤ r ∧ r ≤ 0xFF then r != 0xAD
    else false
  else printTable r

/-- The digit table `lowerhex` of `strconv`. -/
def lowerhex : List Char := "0123456789abcdef".data

/-- The `width` lower-case hexadecimal digits of `r`, most significant first. -/
def hexDigits (width r : Nat) : List Char :=
  (List.range width).reverse.map (fun i => lowerhex.getD (r / 16 ^ i % 16) (Char.ofNat 48))

/-- The function `appendEscapedRune` of `strconv` for the double quote, with `ASCIIonly` and
`graphicOnly` false, returning the characters it appends.  A Lean `Char` is a valid rune, so
the branch for invalid runes does not arise. -/
def appendEscapedRune (printTable : Nat → Bool) (c : Char) : List Char :=
  let r := c.toNat
  if r = 0x22 ∨ r = 0x5C then [Char.ofNat 0x5C, c]
  else if IsPrint printTable r then [c]
  else if r = 0x07 then "\\a".data
  else if r = 0x08 then "\\b".data
  else if r = 0x0C then "\\f".data
  else if r = 0x0A then "\\n".data
  else if r = 0x0D then "\\r".data
  else if r = 0x09 then "\\t".data
  else if r = 0x0B then "\\v".data
  else if r < 0x20 ∨ r = 0x7F then "\\x".data ++ hexDigits 2 r
  else if r < 0x10000 then "\\u".data ++ hexDigits 4 r
  else "\\U".data ++ hexDigits 8 r

/-- The function `strconv.Quote`, which is what the verb `%q` prints for a string.  A Lean
`String` is valid UTF-8, so the branch for undecodable bytes does not arise. -/
def strconvQuote (printTable : Nat → Bool) (s : String) : String :=
  String.mk ([Char.ofNat 0x22] ++ (s.data.map (appendEscapedRune printTable)).flatten
    ++ [Char.ofNat 0x22])

/-! ## Errors (packages `github.com/pkg/errors` and `k8s.io/apimachinery/pkg/api/errors`) -/

/-- Modelled from the spec: the error values of the two error packages, which are not under
src/.  The spec asks for errors that are classifiable as NotFound or other, and for wrapping
that adds context and preserves the original cause.  An error is an API status error
carrying a reason (what a registry answers when it classifies its failure), any other error
value of a collaborator, or one of the three error values of `pkg/errors`: `fundamental`
(built by `Errorf`), `withMessage` and `withStack` (built by `Wrap` and `Wrapf`).  The
recorded stack traces are left out, they have no part in the message, the cause or the
classification. -/
inductive GoError where
  | apiStatus (reason : String) (message : String) : GoError
  | plain (message : String) : GoError
  | fundamental (msg : String) : GoError
  | withMessage (cause : GoError) (msg : String) : GoError
  | withStack (error : GoError) : GoError
  deriving DecidableEq, Repr

/-- The method `Error()`: the message of an error. -/
def GoError.Error : GoError → String
  | GoError.apiStatus _ message => message
  | GoError.plain message => message
  | GoError.fundamental msg => msg
  | GoError.withMessage cause msg => msg ++ ": " ++ cause.Error
  | GoError.withStack error => error.Error

/-- The method `Unwrap()` of the wrappers: the error directly underneath. -/
def GoError.Unwrap : GoError → Option GoError
  | GoError.withMessage cause _ => some cause
  | GoError.withStack error => some error
  | _ => none

/-- The function `errors.Cause`: the innermost error that is not a wrapper. -/
def GoError.Cause : GoError → GoError
  | GoError.withMessage cause _ => cause.Cause
  | GoError.withStack error => error.Cause
  | e => e

/-- The function `errors.Errorf`, applied to the formatted message. -/
def Errorf (formatted : String) : Option GoError :=
  some (GoError.fundamental formatted)

/-- The function `errors.Wrap`: nil for a nil error, else the error annotated with the
message and a stack. -/
def Wrap (err : Option GoError) (message : String) : Option GoError :=
  match err with
  | none => none
  | some e => some (GoError.withStack (GoError.withMessage e message))

/-- The function `errors.Wrapf`, applied to the formatted message. -/
def Wrapf (err : Option GoError) (formatted : String) : Option GoError :=
  match err with
  | none => none
  | some e => some (GoError.withStack (GoError.withMessage e formatted))

def StatusReasonUnknown : String := ""
def StatusReasonNotFound : String := "NotFound"

/-- The search of `errors.As` for an API status along the chain of `Unwrap`: the reason of
the first status error met. -/
def GoError.statusReason : GoError → Option String
  | GoError.apiStatus reason _ => some reason
  | GoError.withMessage cause _ => cause.statusReason
  | GoError.withStack error => error.statusReason
  | _ => none

/-- Modelled from the spec: `kerrors.ReasonForError`, not under src/; it supports wrapped
errors, the spec asking that a translated not-found error stays classifiable. -/
def ReasonForError (err : Option GoError) : String :=
  match err with
  | none => StatusReasonUnknown
  | some e =>
    match e.statusReason with
    | some reason => reason
    | none => StatusReasonUnknown

/-- Modelled from the spec: `kerrors.IsNotFound`, not under src/: the classification of an
error as NotFound; false for the nil error. -/
def IsNotFound (err : Option GoError) : Bool :=
  ReasonForError err == StatusReasonNotFound

/-! ## Resources and collaborators -/

/-- The `metav1.ObjectMeta` fields that identify a resource. -/
structure ObjectMeta where
  Name : String
  Namespace : String
  deriving DecidableEq, Repr

/-- A `cephv1.CephObjectStore` resource. -/
structure CephObjectStore where
  ObjectMeta : ObjectMeta
  deriving DecidableEq, Repr

/-- A `cephv1.CephCluster` resource. -/
structure CephCluster where
  ObjectMeta : ObjectMeta
  deriving DecidableEq, Repr

/-- A `cephv1.CephClusterList`. -/
structure CephClusterList where
  Items : List CephCluster
  deriving DecidableEq, Repr

/-- A `v1.Service` resource. -/
structure Service where
  ObjectMeta : ObjectMeta
  deriving DecidableEq, Repr

/-- The calls made on `RookClientset.CephV1()`: `CephObjectStores(ns).Get(ctx, name, opts)`
and `CephClusters(ns).List(ctx, opts)`, each with its Go result pair. -/
structure RookClientset where
  CephObjectStoresGet : String → String → Option CephObjectStore × Option GoError
  CephClustersList : String → Option CephClusterList × Option GoError

/-- The call made on a `kubernetes.Interface`: `CoreV1().Services(ns).Get(ctx, name, opts)`. -/
structure KubernetesInterface where
  ServicesGet : String → String → Option Service × Option GoError

/-- The `clusterd.Context` field read by the package. -/
structure Context where
  RookClientset : RookClientset

/-- The `ClusterInfo` field read by the package. -/
structure ClusterInfo where
  Namespace : String

/-- The `Provisioner` fields read by the functions of this file. -/
structure Provisioner where
  context : Context
  clusterInfo : ClusterInfo
  objectStoreName : String

/-! ## Resource lookups -/

def Provisioner.getObjectStore (printTable : Nat → Bool) (p : Provisioner) :
    Option CephObjectStore × Option GoError :=
  let (store, err) :=
    p.context.RookClientset.CephObjectStoresGet p.clusterInfo.Namespace p.objectStoreName
  if err ≠ none then
    if IsNotFound err then
      (none, Wrap err "cephObjectStore not found")
    else
      (none, Wrapf err ("failed to get ceph object store "
        ++ strconvQuote printTable p.objectStoreName))
  else
    (store, err)

def getService (printTable : Nat → Bool) (c : KubernetesInterface) (ns name : String) :
    Option Service × Option GoError :=
  let (svc, err) := c.ServicesGet ns name
  if err ≠ none then
    if IsNotFound err then
      (none, Wrap err "cephObjectStore service not found")
    else
      (none, Wrapf err ("failed to get ceph object store service "
        ++ strconvQuote printTable name))
  else
    (svc, none)

/-- The result `none` is the panic of reading `Items` through a nil list pointer. -/
def Provisioner.getCephCluster (printTable : Nat → Bool) (p : Provisioner) :
    Option (Option CephCluster × Option GoError) :=
  let (cephCluster, err) := p.context.RookClientset.CephClustersList p.clusterInfo.Namespace
  if err ≠ none then
    some (none, Wrapf err ("failed to list ceph clusters in namespace "
      ++ strconvQuote printTable p.clusterInfo.Namespace))
  else
    match cephCluster with
    | none => none
    | some list =>
      if list.Items.length = 0 then
        some (none, Errorf ("failed to find ceph cluster in namespace "
          ++ strconvQuote printTable p.clusterInfo.Namespace))
      else
        some (list.Items[0]?, err)

/-! ## Random identifiers -/

/-- The random source `crypto/rand`: `Read b` is the call `rand.Read(b)` on a buffer holding
`b`, giving the contents of the buffer after the call and the error of the call. -/
structure RandReader where
  Read : List Nat → List Nat × Option GoError

def letterRunes : String := "0123456789abcdefghijklmnopqrstuvwxyzABCDEFGHIJKLMNOPQRSTUVWXYZ"

/-- The Go expression `s[i]` on a string of one-byte characters: the byte at index `i`, or
`none` for the index-out-of-range panic. -/
def byteAt (s : String) (i : Nat) : Option Nat :=
  (s.data[i]?).map Char.toNat

/-- The index `v%byte(len(letterRunes))` of the letter chosen for the byte `v`. -/
def letterIndex (v : Nat) : Nat :=
  v % (letterRunes.length % 256)

/-- The Go expression `letterRunes[v%byte(len(letterRunes))]`: the letter written for the
byte `v`, or `none` for the index-out-of-range panic. -/
def letterFor (v : Nat) : Option Nat :=
  byteAt letterRunes (letterIndex v)

/-- The letter byte written for `v`, as a total function. -/
def letterByte (v : Nat) : Nat :=
  (letterFor v).getD 0

/-- The loop `for k, v := range b` with the body `b[k] = letterRunes[...]`, from index `k`
with `remaining` iterations to go: each iteration reads `b[k]` and overwrites it in place. -/
def randomStringLoop : (k remaining : Nat) → List Nat → Option (List Nat)
  | _, 0, b => some b
  | k, remaining + 1, b =>
    match b[k]? with
    | none => none
    | some v =>
      match letterFor v with
      | none => none
      | some letter => randomStringLoop (k + 1) remaining (b.set k letter)

/-- The conversion `string(b)` of a buffer of one-byte characters. -/
def stringOfBytes (b : List Nat) : String :=
  String.mk (b.map Char.ofNat)

/-- The function `randomString`, run with the random source `rd`.  The result `none` is a
panic: `make` with a negative length, or an index out of range. -/
def randomString (rd : RandReader) (n : Int) : Option String :=
  if n < 0 then none
  else
    let b := List.replicate n.toNat 0
    let (b, err) := rd.Read b
    if err ≠ none then some ""
    else
      match randomStringLoop 0 b.length b with
      | none => none
      | some b => some (stringOfBytes b)

/-- A random source that fills the buffer with the leading bytes of `bytes`. -/
def readerOf (bytes : List Nat) : RandReader :=
  ⟨fun b => (bytes.take b.length, none)⟩

/-- A random source that fails and leaves the buffer as it was. -/
def failingReader : RandReader :=
  ⟨fun b => (b, some (GoError.plain "entropy source failed"))⟩

/-- The number of byte values `0..255` for which `randomString` writes the letter `letter`. -/
def byteValuesFor (letter : Nat) : Nat :=
  ((List.range 256).filter (fun v => letterFor v = some letter)).length

/-! ## Scenario data -/

/-- A character that `%q` prints as itself: printable ASCII other than the double quote and
the backslash.  The names of Kubernetes resources and namespaces consist of such characters. -/
def plainChar (c : Char) : Prop :=
  0x20 ≤ c.toNat ∧ c.toNat ≤ 0x7E ∧ c.toNat ≠ 0x22 ∧ c.toNat ≠ 0x5C

instance (c : Char) : Decidable (plainChar c) := by
  unfold plainChar; infer_instance

/-- The chain of `Unwrap` of an error, the error itself first. -/
def GoError.chain : GoError → List GoError
  | GoError.withMessage cause msg => GoError.withMessage cause msg :: cause.chain
  | GoError.withStack error => GoError.withStack error :: error.chain
  | e => [e]

/-- A provisioner of the namespace `ns` and the store `name` whose registry answers every
store fetch with `storeAnswer` and every cluster listing with `clusterAnswer`. -/
def provisionerOf (ns name : String)
    (storeAnswer : Option CephObjectStore × Option GoError)
    (clusterAnswer : Option CephClusterList × Option GoError) : Provisioner :=
  ⟨⟨⟨fun _ _ => storeAnswer, fun _ => clusterAnswer⟩⟩, ⟨ns⟩, name⟩

/-- A service registry that answers every fetch with `answer`. -/
def serviceRegistryOf (answer : Option Service × Option GoError) : KubernetesInterface :=
  ⟨fun _ _ => answer⟩

def clusterA : CephCluster := ⟨⟨"cluster-a", "rook-ceph"⟩⟩
def clusterB : CephCluster := ⟨⟨"cluster-b", "rook-ceph"⟩⟩
def store1 : CephObjectStore := ⟨⟨"store1", "rook-ceph"⟩⟩
def rgwService : Service := ⟨⟨"rook-ceph-rgw-store1", "rook-ceph"⟩⟩

/-- The error `kerrors.NewNotFound` builds for the store `store1`. -/
def storeNotFound : GoError :=
  GoError.apiStatus "NotFound" "cephobjectstores.ceph.rook.io \"store1\" not found"

/-- A not-found answer of a service registry whose message does not mention the requested
resource. -/
def genericNotFound : GoError :=
  GoError.apiStatus "NotFound" "the server could not find the requested resource"

/-- A time-out of the backend. -/
def backendTimeout : GoError :=
  GoError.plain "context deadline exceeded"

/-! ## Lemmas on the library models -/

theorem appendEscapedRune_plain (printTable : Nat → Bool) (c : Char) (h : plainChar c) :
    appendEscapedRune printTable c = [c] := by
  obtain ⟨h1, h2, h3, h4⟩ := h
  have hp : IsPrint printTable c.toNat = true := by
    unfold IsPrint
    have : c.toNat ≤ 0xFF := by omega
    simp [this, h1, h2]
  simp [appendEscapedRune, h3, h4, hp]

theorem flatten_escaped_plain (printTable : Nat → Bool) (cs : List Char)
    (h : ∀ c ∈ cs, plainChar c) :
    (cs.map (appendEscapedRune printTable)).flatten = cs := by
  induction cs with
  | nil => rfl
  | cons c cs ih =>
    have hc := appendEscapedRune_plain printTable c (h c (List.mem_cons_self _ _))
    have ih2 := ih (fun d hd => h d (List.mem_cons_of_mem _ hd))
    simp [hc, ih2]

/-- On a plain name `%q` only adds the surrounding double quotes. -/
theorem strconvQuote_plain (printTable : Nat → Bool) (s : String)
    (h : ∀ c ∈ s.data, plainChar c) :
    strconvQuote printTable s = "\"" ++ s ++ "\"" := by
  apply String.ext
  simp [strconvQuote, flatten_escaped_plain printTable s.data h]

/-- A plain name occurs verbatim inside its quoted form. -/
theorem plain_infix_quote (printTable : Nat → Bool) (s : String)
    (h : ∀ c ∈ s.data, plainChar c) :
    List.IsInfix s.data (strconvQuote printTable s).data := by
  rw [strconvQuote_plain printTable s h]
  refine ⟨"\"".data, "\"".data, ?_⟩
  simp

theorem chain_head (e : GoError) : e ∈ e.chain := by
  cases e <;> simp [GoError.chain]

theorem wrap_chain (e : GoError) (msg : String) :
    e ∈ (GoError.withStack (GoError.withMessage e msg)).chain := by
  simp [GoError.chain, chain_head]

theorem cause_wrap (e : GoError) (msg : String) :
    (GoError.withStack (GoError.withMessage e msg)).Cause = e.Cause := by
  simp [GoError.Cause]

theorem isNotFound_wrap (e : GoError) (msg : String) :
    IsNotFound (some (GoError.withStack (GoError.withMessage e msg))) = IsNotFound (some e) := by
  simp [IsNotFound, ReasonForError, GoError.statusReason]

theorem error_wrap (e : GoError) (msg : String) :
    (GoError.withStack (GoError.withMessage e msg)).Error = msg ++ ": " ++ e.Error := by
  simp [GoError.Error]

/-- The middle part of a message occurs inside the message. -/
theorem infix_middle (a q b : String) : List.IsInfix q.data (a ++ q ++ b).data :=
  ⟨a.data, b.data, by simp⟩

/-- A plain name occurs verbatim inside a message built around its quoted form. -/
theorem plain_infix_message (printTable : Nat → Bool) (a b name : String)
    (h : ∀ c ∈ name.data, plainChar c) :
    List.IsInfix name.data (a ++ strconvQuote printTable name ++ b).data :=
  List.IsInfix.trans (plain_infix_quote printTable name h) (infix_middle a _ b)

/-! ## The parameter and quota reads -/

/-- C7: `isStaticBucket` returns the value bound to the key `bucketName` together with `true`
when the key is present, also when the bound value is the empty string, and the empty string
together with `false` when the key is absent; on the parameters of the end-to-end scenario it
returns `fixed-bucket` and `true`. -/
theorem isStaticBucket_present_absent (sc : StorageClass) :
    (∀ value, sc.Parameters.get? "bucketName" = some value →
        isStaticBucket sc = (value, true))
    ∧ (sc.Parameters.get? "bucketName" = none → isStaticBucket sc = ("", false))
    ∧ isStaticBucket ⟨GoMap.entries [("bucketName", "")]⟩ = ("", true)
    ∧ isStaticBucket ⟨scenarioParameters⟩ = ("fixed-bucket", true) := by
  refine ⟨?_, ?_, by decide, by decide⟩
  · intro value h
    simp [isStaticBucket, GoMap.indexOk, h]
  · intro h
    simp [isStaticBucket, GoMap.indexOk, h]

/-- The read of a key bound to the empty string, and the read of the nil map. -/
theorem isStaticBucket_present_absent_witness :
    isStaticBucket ⟨GoMap.entries [("endpoint", "x"), ("bucketName", "")]⟩ = ("", true)
    ∧ isStaticBucket ⟨GoMap.nil⟩ = ("", false) :=
  ⟨(isStaticBucket_present_absent ⟨GoMap.entries [("endpoint", "x"), ("bucketName", "")]⟩).1
      "" (by decide),
    (isStaticBucket_present_absent ⟨GoMap.nil⟩).2.1 (by decide)⟩

/-- C8: `MaxObjectQuota` and `MaxSizeQuota` return the strings bound to the keys `maxObjects`
and `maxSize` of the additional configuration of the claim, as they are, and the empty string
for an absent key; for the configuration that binds only `maxObjects` to `1000` the pair is
`1000` and the empty string. -/
theorem quota_reads (options : BucketOptions) :
    MaxObjectQuota options
        = (options.ObjectBucketClaim.Spec.AdditionalConfig.get? "maxObjects").getD ""
    ∧ MaxSizeQuota options
        = (options.ObjectBucketClaim.Spec.AdditionalConfig.get? "maxSize").getD ""
    ∧ (MaxObjectQuota ⟨⟨⟨GoMap.entries [("maxObjects", "1000")]⟩⟩⟩,
        MaxSizeQuota ⟨⟨⟨GoMap.entries [("maxObjects", "1000")]⟩⟩⟩) = ("1000", "") := by
  refine ⟨?_, ?_, by decide⟩
  · unfold MaxObjectQuota GoMap.index
    cases options.ObjectBucketClaim.Spec.AdditionalConfig.get? "maxObjects" <;> rfl
  · unfold MaxSizeQuota GoMap.index
    cases options.ObjectBucketClaim.Spec.AdditionalConfig.get? "maxSize" <;> rfl

/-- C9: the three parameter reads are total and return the value bound to `objectStoreName`,
`objectStoreNamespace` and `endpoint`, or the empty string when the key is absent, in
particular on the nil and on the empty map; two parameter maps that agree on the key of a
read give the same result of that read; on the parameters of the end-to-end scenario the
reads give `store1`, `rook-ceph` and the empty string. -/
theorem parameter_reads (sc : StorageClass) :
    getObjectStoreName sc = (sc.Parameters.get? "objectStoreName").getD ""
    ∧ getObjectStoreNameSpace sc = (sc.Parameters.get? "objectStoreNamespace").getD ""
    ∧ getObjectStoreEndpoint sc = (sc.Parameters.get? "endpoint").getD ""
    ∧ (∀ sc2 : StorageClass,
        sc2.Parameters.get? "objectStoreName" = sc.Parameters.get? "objectStoreName" →
        getObjectStoreName sc2 = getObjectStoreName sc)
    ∧ (∀ sc2 : StorageClass,
        sc2.Parameters.get? "objectStoreNamespace" = sc.Parameters.get? "objectStoreNamespace" →
        getObjectStoreNameSpace sc2 = getObjectStoreNameSpace sc)
    ∧ (∀ sc2 : StorageClass,
        sc2.Parameters.get? "endpoint" = sc.Parameters.get? "endpoint" →
        getObjectStoreEndpoint sc2 = getObjectStoreEndpoint sc)
    ∧ (getObjectStoreName ⟨GoMap.nil⟩, getObjectStoreNameSpace ⟨GoMap.nil⟩,
        getObjectStoreEndpoint ⟨GoMap.nil⟩) = ("", "", "")
    ∧ (getObjectStoreName ⟨GoMap.entries []⟩, getObjectStoreNameSpace ⟨GoMap.entries []⟩,
        getObjectStoreEndpoint ⟨GoMap.entries []⟩) = ("", "", "")
    ∧ (getObjectStoreName ⟨scenarioParameters⟩, getObjectStoreNameSpace ⟨scenarioParameters⟩,
        getObjectStoreEndpoint ⟨scenarioParameters⟩) = ("store1", "rook-ceph", "") := by
  have key : ∀ (m : GoMap) (k : String), m.index k = (m.get? k).getD "" := by
    intro m k
    unfold GoMap.index
    cases m.get? k <;> rfl
  refine ⟨key _ _, key _ _, key _ _, ?_, ?_, ?_, by decide, by decide, by decide⟩
  · intro sc2 h
    simp only [getObjectStoreName, key, objectStoreName, h]
  · intro sc2 h
    simp only [getObjectStoreNameSpace, key, objectStoreNamespace, h]
  · intro sc2 h
    simp only [getObjectStoreEndpoint, key, objectStoreEndpoint, h]

/-- Two parameter maps that agree on `objectStoreName` give the same store name. -/
theorem parameter_reads_witness :
    getObjectStoreName ⟨GoMap.entries [("objectStoreName", "store1"), ("bucketName", "b")]⟩
      = getObjectStoreName ⟨scenarioParameters⟩ :=
  (parameter_reads ⟨scenarioParameters⟩).2.2.2.1
    ⟨GoMap.entries [("objectStoreName", "store1"), ("bucketName", "b")]⟩ (by decide)

/-! ## The cluster lookup -/

/-- C4: when the listing of the clusters of the namespace succeeds with a non-empty list,
`getCephCluster` returns the first entry of the list, in listing order, and the nil error,
whatever entries follow the first. -/
theorem getCephCluster_first (printTable : Nat → Bool) (p : Provisioner)
    (first : CephCluster) (rest : List CephCluster)
    (hlist : p.context.RookClientset.CephClustersList p.clusterInfo.Namespace
      = (some ⟨first :: rest⟩, none)) :
    p.getCephCluster printTable = some (some first, none) := by
  simp [Provisioner.getCephCluster, hlist]

/-- A listing of three clusters gives the first of them. -/
theorem getCephCluster_first_witness :
    (provisionerOf "rook-ceph" "store1" (none, none)
        (some ⟨[clusterB, clusterA, clusterA]⟩, none)).getCephCluster (fun _ => false)
      = some (some clusterB, none) :=
  getCephCluster_first (fun _ => false)
    (provisionerOf "rook-ceph" "store1" (none, none)
      (some ⟨[clusterB, clusterA, clusterA]⟩, none))
    clusterB [clusterA, clusterA] rfl

/-- C5, as stated, fails: for the namespace `rook-ceph` with an empty listing the error
returned by `getCephCluster` is a bare message error, which `IsNotFound` does not classify
as NotFound. -/
theorem getCephCluster_empty_not_classified :
    (provisionerOf "rook-ceph" "store1" (none, none) (some ⟨[]⟩, none)).getCephCluster
        (fun _ => false)
      = some (none, some (GoError.fundamental
          "failed to find ceph cluster in namespace \"rook-ceph\""))
    ∧ IsNotFound (some (GoError.fundamental
          "failed to find ceph cluster in namespace \"rook-ceph\"")) = false := by
  constructor
  · decide
  · decide

/-- C5, amended: when the listing of the clusters of the namespace succeeds with an empty
list, `getCephCluster` returns no cluster and a new error without a cause, which is not
classified as NotFound, and whose message is `failed to find ceph cluster in namespace`
followed by the namespace as `%q` prints it; the message holds the namespace itself when
the namespace is made of plain characters. -/
theorem getCephCluster_empty (printTable : Nat → Bool) (p : Provisioner)
    (hlist : p.context.RookClientset.CephClustersList p.clusterInfo.Namespace
      = (some ⟨[]⟩, none)) :
    ∃ e, p.getCephCluster printTable = some (none, some e)
      ∧ e.Error = "failed to find ceph cluster in namespace "
          ++ strconvQuote printTable p.clusterInfo.Namespace
      ∧ e.Unwrap = none
      ∧ IsNotFound (some e) = false
      ∧ List.IsInfix (strconvQuote printTable p.clusterInfo.Namespace).data e.Error.data
      ∧ ((∀ c ∈ p.clusterInfo.Namespace.data, plainChar c) →
          List.IsInfix p.clusterInfo.Namespace.data e.Error.data) := by
  refine ⟨GoError.fundamental ("failed to find ceph cluster in namespace "
      ++ strconvQuote printTable p.clusterInfo.Namespace), ?_, rfl, rfl, ?_, ?_, ?_⟩
  · simp [Provisioner.getCephCluster, hlist, Errorf]
  · simp [IsNotFound, ReasonForError, GoError.statusReason, StatusReasonUnknown,
      StatusReasonNotFound]
  · have h := infix_middle "failed to find ceph cluster in namespace "
      (strconvQuote printTable p.clusterInfo.Namespace) ""
    simpa [GoError.Error] using h
  · intro hplain
    have h := plain_infix_message printTable "failed to find ceph cluster in namespace " ""
      p.clusterInfo.Namespace hplain
    simpa [GoError.Error] using h

/-- The empty listing of the namespace `rook-ceph`. -/
theorem getCephCluster_empty_witness :
    ∃ e, (provisionerOf "rook-ceph" "store1" (none, none) (some ⟨[]⟩, none)).getCephCluster
          (fun _ => false) = some (none, some e)
      ∧ e.Error = "failed to find ceph cluster in namespace \"rook-ceph\""
      ∧ IsNotFound (some e) = false
      ∧ List.IsInfix "rook-ceph".data e.Error.data :=
  match getCephCluster_empty (fun _ => false)
    (provisionerOf "rook-ceph" "store1" (none, none) (some ⟨[]⟩, none)) rfl with
  | ⟨e, h1, h2, _, h4, _, h6⟩ => ⟨e, h1, h2.trans (by decide), h4, h6 (by decide)⟩

/-! ## The store lookup -/

/-- C6: `getObjectStore` turns the outcome of the one store fetch into three cases.  A fetch
that fails with a not-found error gives no store and the error `cephObjectStore not found`
wrapped around the backend error, which keeps the backend error as its cause and is still
classified as NotFound.  A fetch that fails with another error gives no store and an error
wrapped around the backend error whose message names the store, as `%q` prints it, and which
is not classified as NotFound.  A fetch that succeeds gives the fetched store as it is and
the nil error. -/
theorem getObjectStore_three_cases (printTable : Nat → Bool) (p : Provisioner)
    (store : Option CephObjectStore) (err : Option GoError)
    (hget : p.context.RookClientset.CephObjectStoresGet p.clusterInfo.Namespace
      p.objectStoreName = (store, err)) :
    (∀ e, err = some e → IsNotFound (some e) = true →
      ∃ r, p.getObjectStore printTable = (none, some r)
        ∧ r = GoError.withStack (GoError.withMessage e "cephObjectStore not found")
        ∧ r.Error = "cephObjectStore not found: " ++ e.Error
        ∧ e ∈ r.chain ∧ r.Cause = e.Cause
        ∧ IsNotFound (some r) = true)
    ∧ (∀ e, err = some e → IsNotFound (some e) = false →
      ∃ r, p.getObjectStore printTable = (none, some r)
        ∧ r = GoError.withStack (GoError.withMessage e
            ("failed to get ceph object store " ++ strconvQuote printTable p.objectStoreName))
        ∧ r.Error = "failed to get ceph object store "
            ++ strconvQuote printTable p.objectStoreName ++ ": " ++ e.Error
        ∧ List.IsInfix (strconvQuote printTable p.objectStoreName).data r.Error.data
        ∧ ((∀ c ∈ p.objectStoreName.data, plainChar c) →
            List.IsInfix p.objectStoreName.data r.Error.data)
        ∧ e ∈ r.chain ∧ r.Cause = e.Cause
        ∧ IsNotFound (some r) = false)
    ∧ (err = none → p.getObjectStore printTable = (store, none)) := by
  refine ⟨?_, ?_, ?_⟩
  · intro e he hnf
    subst he
    refine ⟨_, ?_, rfl, ?_, wrap_chain e _, cause_wrap e _, ?_⟩
    · simp [Provisioner.getObjectStore, hget, hnf, Wrap]
    · simp [error_wrap]
    · rw [isNotFound_wrap]; exact hnf
  · intro e he hnf
    subst he
    refine ⟨_, ?_, rfl, ?_, ?_, ?_, wrap_chain e _, cause_wrap e _, ?_⟩
    · simp [Provisioner.getObjectStore, hget, hnf, Wrapf]
    · simp [error_wrap, String.append_assoc]
    · rw [error_wrap]
      have h := infix_middle "failed to get ceph object store "
        (strconvQuote printTable p.objectStoreName) (": " ++ e.Error)
      simpa [String.append_assoc] using h
    · intro hplain
      rw [error_wrap]
      have h := plain_infix_message printTable "failed to get ceph object store "
        (": " ++ e.Error) p.objectStoreName hplain
      simpa [String.append_assoc] using h
    · rw [isNotFound_wrap]; exact hnf
  · intro he
    subst he
    simp [Provisioner.getObjectStore, hget]

/-- The three outcomes of the fetch of the store `store1`: not found, a time-out, success. -/
theorem getObjectStore_three_cases_witness :
    (∃ r, (provisionerOf "rook-ceph" "store1" (none, some storeNotFound)
          (none, none)).getObjectStore (fun _ => false) = (none, some r)
        ∧ r.Error = "cephObjectStore not found: cephobjectstores.ceph.rook.io \"store1\" not found"
        ∧ r.Cause = storeNotFound
        ∧ IsNotFound (some r) = true)
    ∧ (∃ r, (provisionerOf "rook-ceph" "store1" (none, some backendTimeout)
          (none, none)).getObjectStore (fun _ => false) = (none, some r)
        ∧ r.Error = "failed to get ceph object store \"store1\": context deadline exceeded"
        ∧ List.IsInfix "store1".data r.Error.data
        ∧ r.Cause = backendTimeout
        ∧ IsNotFound (some r) = false)
    ∧ (provisionerOf "rook-ceph" "store1" (some store1, none)
          (none, none)).getObjectStore (fun _ => false) = (some store1, none) :=
  ⟨match (getObjectStore_three_cases (fun _ => false)
        (provisionerOf "rook-ceph" "store1" (none, some storeNotFound) (none, none))
        none (some storeNotFound) rfl).1 storeNotFound rfl (by decide) with
    | ⟨r, h1, _, h3, _, h5, h6⟩ => ⟨r, h1, h3.trans (by decide), h5.trans (by decide), h6⟩,
   match (getObjectStore_three_cases (fun _ => false)
        (provisionerOf "rook-ceph" "store1" (none, some backendTimeout) (none, none))
        none (some backendTimeout) rfl).2.1 backendTimeout rfl (by decide) with
    | ⟨r, h1, _, h3, _, h5, _, h7, h8⟩ =>
      ⟨r, h1, h3.trans (by decide), h5 (by decide), h7.trans (by decide), h8⟩,
   (getObjectStore_three_cases (fun _ => false)
        (provisionerOf "rook-ceph" "store1" (some store1, none) (none, none))
        (some store1) none rfl).2.2 rfl⟩

/-! ## The service lookup -/

/-- C10, as stated, fails: when the fetch of the service `rook-ceph-rgw-store1` is answered
with a not-found error whose own message does not mention the service, the message of the
error returned by `getService` is `cephObjectStore service not found` followed by the backend
message, and does not hold the name of the requested service. -/
theorem getService_not_found_message_without_name :
    ∃ r, getService (fun _ => false) (serviceRegistryOf (none, some genericNotFound))
          "rook-ceph" "rook-ceph-rgw-store1" = (none, some r)
      ∧ IsNotFound (some r) = true
      ∧ r.Error = "cephObjectStore service not found: the server could not find the requested resource"
      ∧ ¬ List.IsInfix "rook-ceph-rgw-store1".data r.Error.data := by
  refine ⟨GoError.withStack (GoError.withMessage genericNotFound
    "cephObjectStore service not found"), by decide, by decide, by decide, ?_⟩
  intro h
  have hmem : Char.ofNat 0x2D ∈ (GoError.withStack (GoError.withMessage genericNotFound
      "cephObjectStore service not found")).Error.data :=
    h.subset (by decide)
  revert hmem
  decide

/-- C10, amended: `getService` turns the outcome of the service fetch into three cases.  A
fetch that fails with a not-found error gives no service and the error
`cephObjectStore service not found` wrapped around the backend error, which keeps the backend
error as its cause and is still classified as NotFound; its message is that text followed by
the backend message.  A fetch that fails with another error gives no service and an error
wrapped around the backend error whose message names the requested service, as `%q` prints
it, and which is not classified as NotFound.  A fetch that succeeds gives the fetched service
and the nil error. -/
theorem getService_three_cases (printTable : Nat → Bool) (c : KubernetesInterface)
    (ns name : String) (svc : Option Service) (err : Option GoError)
    (hget : c.ServicesGet ns name = (svc, err)) :
    (∀ e, err = some e → IsNotFound (some e) = true →
      ∃ r, getService printTable c ns name = (none, some r)
        ∧ r = GoError.withStack (GoError.withMessage e "cephObjectStore service not found")
        ∧ r.Error = "cephObjectStore service not found: " ++ e.Error
        ∧ e ∈ r.chain ∧ r.Cause = e.Cause
        ∧ IsNotFound (some r) = true)
    ∧ (∀ e, err = some e → IsNotFound (some e) = false →
      ∃ r, getService printTable c ns name = (none, some r)
        ∧ r = GoError.withStack (GoError.withMessage e
            ("failed to get ceph object store service " ++ strconvQuote printTable name))
        ∧ r.Error = "failed to get ceph object store service "
            ++ strconvQuote printTable name ++ ": " ++ e.Error
        ∧ List.IsInfix (strconvQuote printTable name).data r.Error.data
        ∧ ((∀ ch ∈ name.data, plainChar ch) → List.IsInfix name.data r.Error.data)
        ∧ e ∈ r.chain ∧ r.Cause = e.Cause
        ∧ IsNotFound (some r) = false)
    ∧ (err = none → getService printTable c ns name = (svc, none)) := by
  refine ⟨?_, ?_, ?_⟩
  · intro e he hnf
    subst he
    refine ⟨_, ?_, rfl, ?_, wrap_chain e _, cause_wrap e _, ?_⟩
    · simp [getService, hget, hnf, Wrap]
    · simp [error_wrap]
    · rw [isNotFound_wrap]; exact hnf
  · intro e he hnf
    subst he
    refine ⟨_, ?_, rfl, ?_, ?_, ?_, wrap_chain e _, cause_wrap e _, ?_⟩
    · simp [getService, hget, hnf, Wrapf]
    · simp [error_wrap, String.append_assoc]
    · rw [error_wrap]
      have h := infix_middle "failed to get ceph object store service "
        (strconvQuote printTable name) (": " ++ e.Error)
      simpa [String.append_assoc] using h
    · intro hplain
      rw [error_wrap]
      have h := plain_infix_message printTable "failed to get ceph object store service "
        (": " ++ e.Error) name hplain
      simpa [String.append_assoc] using h
    · rw [isNotFound_wrap]; exact hnf
  · intro he
    subst he
    simp [getService, hget]

/-- The three outcomes of the fetch of the service `rook-ceph-rgw-store1`: not found, a time-out, success. -/
theorem getService_three_cases_witness :
    (∃ r, getService (fun _ => false) (serviceRegistryOf (none, some genericNotFound))
          "rook-ceph" "rook-ceph-rgw-store1" = (none, some r)
        ∧ r.Cause = genericNotFound
        ∧ IsNotFound (some r) = true)
    ∧ (∃ r, getService (fun _ => false) (serviceRegistryOf (none, some backendTimeout))
          "rook-ceph" "rook-ceph-rgw-store1" = (none, some r)
        ∧ r.Error = "failed to get ceph object store service \"rook-ceph-rgw-store1\": context deadline exceeded"
        ∧ List.IsInfix "rook-ceph-rgw-store1".data r.Error.data
        ∧ r.Cause = backendTimeout
        ∧ IsNotFound (some r) = false)
    ∧ getService (fun _ => false) (serviceRegistryOf (some rgwService, none))
          "rook-ceph" "rook-ceph-rgw-store1" = (some rgwService, none) :=
  ⟨match (getService_three_cases (fun _ => false)
        (serviceRegistryOf (none, some genericNotFound)) "rook-ceph" "rook-ceph-rgw-store1"
        none (some genericNotFound) rfl).1 genericNotFound rfl (by decide) with
    | ⟨r, h1, _, _, _, h5, h6⟩ => ⟨r, h1, h5.trans (by decide), h6⟩,
   match (getService_three_cases (fun _ => false)
        (serviceRegistryOf (none, some backendTimeout)) "rook-ceph" "rook-ceph-rgw-store1"
        none (some backendTimeout) rfl).2.1 backendTimeout rfl (by decide) with
    | ⟨r, h1, _, h3, _, h5, _, h7, h8⟩ =>
      ⟨r, h1, h3.trans (by decide), h5 (by decide), h7.trans (by decide), h8⟩,
   (getService_three_cases (fun _ => false)
        (serviceRegistryOf (some rgwService, none)) "rook-ceph" "rook-ceph-rgw-store1"
        (some rgwService) none rfl).2.2 rfl⟩

/-! ## Random identifiers -/

theorem letterRunes_length : letterRunes.length = 62 := by decide

theorem letterIndex_eq (v : Nat) : letterIndex v = v % 62 := by
  simp [letterIndex, letterRunes_length]

/-- The index of the letter is in bounds, so the read of the letter does not panic. -/
theorem letterFor_eq (v : Nat) :
    ∃ c : Char, letterRunes.data[v % 62]? = some c ∧ letterFor v = some c.toNat := by
  have hlt : v % 62 < letterRunes.data.length := by
    have : letterRunes.data.length = 62 := letterRunes_length
    omega
  refine ⟨letterRunes.data[v % 62], List.getElem?_eq_getElem hlt, ?_⟩
  simp [letterFor, byteAt, letterIndex_eq, List.getElem?_eq_getElem hlt]

theorem letterFor_some (v : Nat) : letterFor v = some (letterByte v) := by
  obtain ⟨c, _, hc⟩ := letterFor_eq v
  simp [letterByte, hc]

theorem char_of_letterByte (v : Nat) :
    letterRunes.data[v % 62]? = some (Char.ofNat (letterByte v)) := by
  obtain ⟨c, h1, hc⟩ := letterFor_eq v
  simp [letterByte, hc, h1]

/-- The loop rewrites the part of the buffer from index `k` on, byte by byte, and leaves the
part before it. -/
theorem randomStringLoop_eq (suf : List Nat) :
    ∀ pre : List Nat, randomStringLoop pre.length suf.length (pre ++ suf)
      = some (pre ++ suf.map letterByte) := by
  induction suf with
  | nil => intro pre; simp [randomStringLoop]
  | cons v suf ih =>
    intro pre
    have hset : (pre ++ v :: suf).set pre.length (letterByte v)
        = (pre ++ [letterByte v]) ++ suf := by
      simp
    have h := ih (pre ++ [letterByte v])
    simp only [List.length_append, List.length_singleton] at h
    simp only [List.length_cons, randomStringLoop]
    rw [show (pre ++ v :: suf)[pre.length]? = some v by
      rw [List.getElem?_append_right (le_refl _)]; simp]
    simp only [letterFor_some, hset, h]
    simp

theorem randomStringLoop_all (b : List Nat) :
    randomStringLoop 0 b.length b = some (b.map letterByte) := by
  simpa using randomStringLoop_eq b []

theorem randomString_ok (rd : RandReader) (n : Int) (bs : List Nat) (hn : 0 ≤ n)
    (hread : rd.Read (List.replicate n.toNat 0) = (bs, none)) :
    randomString rd n = some (stringOfBytes (bs.map letterByte)) := by
  have hneg : ¬ n < 0 := by omega
  simp [randomString, hneg, hread, randomStringLoop_all]

theorem randomString_failed (rd : RandReader) (n : Int) (hn : 0 ≤ n)
    (hfail : (rd.Read (List.replicate n.toNat 0)).2 ≠ none) :
    randomString rd n = some "" := by
  have hneg : ¬ n < 0 := by omega
  simp [randomString, hneg, hfail]

/-- C1: for a length `n ≥ 0` and a successful read of `n` bytes `bs` from the random source,
`randomString` returns a string of exactly `n` characters, each of them one of the 62
characters of the alphabet: the character at position `k` is the alphabet character at the
index `bs[k] % 62`, which is in bounds. -/
theorem randomString_length_alphabet (rd : RandReader) (n : Int) (bs : List Nat)
    (hn : 0 ≤ n)
    (hread : rd.Read (List.replicate n.toNat 0) = (bs, none))
    (hlen : bs.length = n.toNat) :
    ∃ s, randomString rd n = some s
      ∧ (s.length : Int) = n
      ∧ (∀ c ∈ s.data, c ∈ letterRunes.data)
      ∧ (∀ k v : Nat, bs[k]? = some v →
          v % 62 < letterRunes.length ∧ s.data[k]? = letterRunes.data[v % 62]?)
      ∧ letterRunes.length = 62 := by
  refine ⟨_, randomString_ok rd n bs hn hread, ?_, ?_, ?_, letterRunes_length⟩
  · simp [stringOfBytes, String.length, hlen, Int.toNat_of_nonneg hn]
  · intro c hc
    simp only [stringOfBytes, List.map_map, List.mem_map, Function.comp] at hc
    obtain ⟨v, _, rfl⟩ := hc
    exact List.mem_iff_getElem?.2 ⟨v % 62, char_of_letterByte v⟩
  · intro k v hv
    refine ⟨by rw [letterRunes_length]; omega, ?_⟩
    simp [stringOfBytes, hv, char_of_letterByte]

/-- A read of six bytes gives a string of six alphabet characters. -/
theorem randomString_length_alphabet_witness :
    ∃ s, randomString (readerOf [0, 61, 62, 255, 10, 36]) 6 = some s
      ∧ (s.length : Int) = 6
      ∧ (∀ c ∈ s.data, c ∈ letterRunes.data)
      ∧ (∀ k v : Nat, [0, 61, 62, 255, 10, 36][k]? = some v →
          v % 62 < letterRunes.length ∧ s.data[k]? = letterRunes.data[v % 62]?)
      ∧ letterRunes.length = 62 :=
  randomString_length_alphabet (readerOf [0, 61, 62, 255, 10, 36]) 6
    [0, 61, 62, 255, 10, 36] (by decide) rfl rfl

/-- C2, as stated, fails: the value returned for the length 8 when the random source fails
is the empty string, which is also the value returned for the length 0 when the random
source succeeds. -/
theorem randomString_failure_not_distinct :
    (failingReader.Read (List.replicate 8 0)).2 ≠ none
    ∧ (readerOf []).Read (List.replicate 0 0) = ([], none)
    ∧ randomString failingReader 8 = some ""
    ∧ randomString (readerOf []) 0 = some ""
    ∧ randomString failingReader 8 = randomString (readerOf []) 0 := by
  refine ⟨by decide, rfl, by decide, by decide, by decide⟩

/-- C2, amended: for a length `n ≥ 0` the value returned when the random source fails is the
empty string; it is different from every value returned for a length `m > 0` when the random
source succeeds, and it is the value returned for the length 0 when the random source
succeeds. -/
theorem randomString_failure_value (rdF rdS : RandReader) (n m : Int) (bs : List Nat)
    (hn : 0 ≤ n) (hm : 0 ≤ m)
    (hfail : (rdF.Read (List.replicate n.toNat 0)).2 ≠ none)
    (hread : rdS.Read (List.replicate m.toNat 0) = (bs, none))
    (hlen : bs.length = m.toNat) :
    randomString rdF n = some ""
    ∧ (0 < m → randomString rdS m ≠ randomString rdF n)
    ∧ (m = 0 → randomString rdS m = randomString rdF n) := by
  have hF := randomString_failed rdF n hn hfail
  have hS := randomString_ok rdS m bs hm hread
  refine ⟨hF, ?_, ?_⟩
  · intro hpos heq
    rw [hS, hF] at heq
    have hlen2 : (stringOfBytes (bs.map letterByte)).length = 0 := by
      rw [Option.some.inj heq]; rfl
    simp [stringOfBytes, String.length] at hlen2
    rw [hlen2] at hlen
    simp at hlen
    omega
  · intro hzero
    subst hzero
    simp at hlen
    rw [hS, hF, hlen]
    rfl

/-- A failed read for the length 8 against successful reads for the lengths 3 and 0. -/
theorem randomString_failure_value_witness :
    randomString failingReader 8 = some ""
    ∧ randomString (readerOf [5, 200, 77]) 3 ≠ randomString failingReader 8
    ∧ randomString (readerOf []) 0 = randomString failingReader 8 :=
  ⟨(randomString_failure_value failingReader (readerOf [5, 200, 77]) 8 3 [5, 200, 77]
      (by decide) (by decide) (by decide) rfl rfl).1,
    (randomString_failure_value failingReader (readerOf [5, 200, 77]) 8 3 [5, 200, 77]
      (by decide) (by decide) (by decide) rfl rfl).2.1 (by decide),
    (randomString_failure_value failingReader (readerOf []) 8 0 []
      (by decide) (by decide) (by decide) rfl rfl).2.2 rfl⟩

/-- C3, as stated, fails: of the byte values `0..255`, five are mapped to the alphabet
character `0` and four to the alphabet character `8`. -/
theorem byteValuesFor_not_uniform :
    letterRunes.data[0]? = some '0' ∧ letterRunes.data[8]? = some '8'
    ∧ byteValuesFor ('0').toNat = 5 ∧ byteValuesFor ('8').toNat = 4
    ∧ byteValuesFor ('0').toNat ≠ byteValuesFor ('8').toNat := by
  refine ⟨by decide, by decide, by decide, by decide, by decide⟩

/-- C3, amended: every byte value `0..255` is mapped to the alphabet character at its index
modulo 62; the 62 alphabet characters are distinct, each of the first eight of them (`0` to
`7`) has five byte values mapped to it and each of the other fifty-four has four, so a
uniform byte gives the former with probability 5/256 and the latter with probability
4/256. -/
theorem byteValuesFor_counts :
    letterRunes.data.Nodup
    ∧ (∀ v : Nat, v < 256 → ∃ c, letterRunes.data[v % 62]? = some c
        ∧ letterFor v = some c.toNat)
    ∧ (∀ i : Nat, i < 62 → ∃ c, letterRunes.data[i]? = some c
        ∧ byteValuesFor c.toNat = if i < 8 then 5 else 4) := by
  refine ⟨by decide, fun v _ => letterFor_eq v, ?_⟩
  intro i hi
  interval_cases i <;> exact ⟨_, rfl, by decide⟩

/-- The counts at the byte value 255, at the alphabet character `3` and at the alphabet
character `E`. -/
theorem byteValuesFor_counts_witness :
    (∃ c, letterRunes.data[255 % 62]? = some c ∧ letterFor 255 = some c.toNat)
    ∧ (∃ c, letterRunes.data[3]? = some c ∧ byteValuesFor c.toNat = 5)
    ∧ (∃ c, letterRunes.data[40]? = some c ∧ byteValuesFor c.toNat = 4) :=
  ⟨byteValuesFor_counts.2.1 255 (by decide),
    byteValuesFor_counts.2.2 3 (by decide),
    byteValuesFor_counts.2.2 40 (by decide)⟩

end Bucket
